import Mathlib

/-!
Verification of the zero2prod newsletter subscription service.

Shallow embedding of the subscription ingestion pipeline:
Rust `String` values are modelled as `List Char` (`RStr`); the validated
value types `SubscriberName`, `SubscriberEmail` and the aggregate
`NewSubscriber` are modelled as Lean structures whose validity invariant
is carried as a propositional field, mirroring the Rust pattern of a
private field reachable only through the validating `parse` constructor;
the HTTP handler `subscribe` and the dispatcher `EmailClient.send_email`
are modelled as pure functions over an explicit persistence / network
outcome parameter.
-/

namespace Zero2Prod

/-- Rust `String` / `&str`, modelled as its sequence of Unicode scalar values. -/
abbrev RStr := List Char

/-- Rust `char::is_whitespace`: membership in the Unicode `White_Space` set. -/
def is_rust_whitespace (c : Char) : Bool :=
  decide (c.toNat = 0x9) || decide (c.toNat = 0xA) || decide (c.toNat = 0xB) ||
  decide (c.toNat = 0xC) || decide (c.toNat = 0xD) || decide (c.toNat = 0x20) ||
  decide (c.toNat = 0x85) || decide (c.toNat = 0xA0) || decide (c.toNat = 0x1680) ||
  (decide (0x2000 ≤ c.toNat) && decide (c.toNat ≤ 0x200A)) ||
  decide (c.toNat = 0x2028) || decide (c.toNat = 0x2029) ||
  decide (c.toNat = 0x202F) || decide (c.toNat = 0x205F) || decide (c.toNat = 0x3000)

/-- Rust `str::trim`: strip leading and trailing `White_Space` characters. -/
def trim (s : RStr) : RStr :=
  ((s.dropWhile is_rust_whitespace).reverse.dropWhile is_rust_whitespace).reverse

/-- Modelled from the spec: the constant `MAX_NAME_LEN` lives in the
`crate::consts` module, which is not among the source files; the spec fixes
the maximum grapheme-cluster length of a subscriber name at 256. -/
def MAX_NAME_LEN : Nat := 256

/-- Modelled from the spec: the constant `FORBIDDEN_NAME_CHARACTERS` lives in
the `crate::consts` module, which is not among the source files; the spec
fixes the forbidden set as forward slash, parentheses, double quote, angle
brackets, backslash and curly braces. -/
def FORBIDDEN_NAME_CHARACTERS : List Char :=
  ['/', '(', ')', '\"', '<', '>', '\\', '\x7b', '\x7d']

/-- Modelled from the spec: grapheme-cluster segmentation is provided by the
external `unicode-segmentation` crate (`graphemes(true)`), whose source is
not part of this repository. The spec speaks only of "grapheme-cluster
count"; we model a cluster extender as a combining diacritical mark
(U+0300..U+036F) or a zero-width joiner, which is exact on the ASCII and
Latin-1 inputs the spec's boundary tests use. -/
def is_grapheme_extend (c : Char) : Bool :=
  (decide (0x300 ≤ c.toNat) && decide (c.toNat ≤ 0x36F)) || decide (c.toNat = 0x200D)

/-- Modelled from the spec: `name.graphemes(true).count()`. The first scalar
value opens a cluster; every following scalar value opens a new cluster
unless it is a cluster extender. -/
def grapheme_count : RStr → Nat
  | [] => 0
  | _ :: rest => 1 + rest.countP (fun c => !is_grapheme_extend c)

namespace Domain

/-- Embeds `is_valid_name` from `src/domain.rs`: a name is valid when its trimmed
form is non-empty, its grapheme-cluster count is at most `MAX_NAME_LEN`, and
it contains no forbidden character. -/
def is_valid_name (name : RStr) : Bool :=
  let is_empty_or_whitespace := (trim name).isEmpty
  let is_too_long := decide (grapheme_count name > MAX_NAME_LEN)
  let contains_a_forbidden_character :=
    name.any (fun c => FORBIDDEN_NAME_CHARACTERS.contains c)
  !(is_empty_or_whitespace || is_too_long || contains_a_forbidden_character)

end Domain

namespace Routes

/-- Embeds `is_valid_name` from `src/routes/subscriptions.rs`, a verbatim duplicate
of the one in `src/domain.rs`. -/
def is_valid_name (name : RStr) : Bool :=
  let is_empty_or_whitespace := (trim name).isEmpty
  let is_too_long := decide (grapheme_count name > MAX_NAME_LEN)
  let contains_a_forbidden_character :=
    name.any (fun c => FORBIDDEN_NAME_CHARACTERS.contains c)
  !(is_empty_or_whitespace || is_too_long || contains_a_forbidden_character)

end Routes

/-- Outcome of evaluating a Rust function of type `Result<A, String>` whose
body may also diverge by panicking. -/
inductive ParseOutcome (α : Type) where
  | ok (v : α)
  | err (msg : RStr)
  | panics (msg : RStr)
deriving DecidableEq

/-- Embeds `SubscriberName` from `src/domain.rs`: a tuple struct with a single
private `String` field; the privacy of the field means every value carries
the validity invariant established by `parse`, which we model as a
propositional field. -/
structure SubscriberName where
  val : RStr
  prop : Domain.is_valid_name val = true
deriving DecidableEq

/-- Embeds `SubscriberName::parse` from `src/domain.rs`: panics (with a message
embedding the offending input) when `is_valid_name` fails, and otherwise
returns `Ok` of the untrimmed original string. The `Err` branch present in
the declared return type is commented out in the source and never taken. -/
def SubscriberName.parse (name : RStr) : ParseOutcome SubscriberName :=
  if h : (!Domain.is_valid_name name) = true then
    .panics (('\"' :: name) ++ "\" is not a valid subscriber name.".data)
  else
    .ok ⟨name, by simpa using h⟩

/-- Modelled from the spec: `SubscriberEmail::parse` delegates to
`validator::validate_email`, an external crate whose source is not part of
this repository. The spec fixes the check as: exactly one `@`, no whitespace
anywhere, and a non-empty local-part and domain-part. -/
def validate_email (email : RStr) : Bool :=
  decide (email.count '@' = 1) &&
  email.all (fun c => !is_rust_whitespace c) &&
  !(email.takeWhile (fun c => !decide (c = '@'))).isEmpty &&
  !((email.dropWhile (fun c => !decide (c = '@'))).drop 1).isEmpty

/-- Embeds `SubscriberEmail` from `src/domain/subscriber_email.rs`: a tuple struct
with a single private `String` field, constructible only through `parse`. -/
structure SubscriberEmail where
  val : RStr
  prop : validate_email val = true
deriving DecidableEq

/-- Embeds `SubscriberEmail::parse` from `src/domain/subscriber_email.rs`: returns
`Ok` of the original string when `validate_email` accepts it, and otherwise
`Err` with a message embedding the offending input. -/
def SubscriberEmail.parse (email : RStr) : Except RStr SubscriberEmail :=
  if h : validate_email email = true then
    .ok ⟨email, h⟩
  else
    .error (('\"' :: email) ++ "\" is not a valid subscriber email.".data)

namespace Domain

/-- Embeds `NewSubscriber` from `src/domain.rs`: the aggregate pairs a *plain,
public* `String` email with a validated `SubscriberName`; only the name
field is construction-gated. -/
structure NewSubscriber where
  email : RStr
  name : SubscriberName

end Domain

namespace DomainV2

/-- Embeds `NewSubscriber` from `src/domain/new_subscriber.rs`: the aggregate pairs
a validated `SubscriberEmail` with a validated `SubscriberName`. -/
structure NewSubscriber where
  email : SubscriberEmail
  name : SubscriberName

end DomainV2

namespace Routes

/-- Embeds `FormData` from `src/routes/subscriptions.rs`: the two raw form fields. -/
structure FormData where
  email : RStr
  name : RStr

/-- Outcome of `insert_subscriber` from `src/routes/subscriptions.rs`: the
database write either succeeds or fails with a `sqlx::Error`, which we model
as an opaque message string. Whether it succeeds is decided by the external
database, so the handler is parametrised over it. -/
abbrev InsertResult := Except RStr Unit

/-- Embeds `subscribe` from `src/routes/subscriptions.rs`: returns 400 when
`is_valid_name` rejects the form's name, otherwise 200 when the insert
succeeds and 500 when it fails. The insert outcome is passed explicitly;
when the name is rejected the handler returns before the insert, which the
model reflects by the response being independent of that argument. -/
def subscribe (form : FormData) (insert_result : InsertResult) : Nat :=
  if (!is_valid_name form.name) = true then
    400
  else
    match insert_result with
    | .ok _ => 200
    | .error _ => 500

end Routes

/-- Embeds `SendEmailRequest` from `src/email_client.rs`: the JSON body of the
dispatch request. The Rust field names `from`, `to`, ... are serialized
under `rename_all = "PascalCase"`, so the structure is modelled with the
wire names `From`, `To`, `Subject`, `HtmlBody`, `TextBody` (also avoiding
the Lean keyword `from`). -/
structure SendEmailRequest where
  From : RStr
  To : RStr
  Subject : RStr
  HtmlBody : RStr
  TextBody : RStr
deriving DecidableEq

/-- The single HTTP POST built by `EmailClient::send_email`: target URL, the
one authentication header, and the JSON body. -/
structure HttpPost where
  url : RStr
  header_name : RStr
  header_value : RStr
  body : SendEmailRequest
deriving DecidableEq

/-- What the network does with the dispatched POST: either the transport
fails (reqwest's `send()` returns `Err`), or the provider answers with some
HTTP status code. Decided outside the program, so passed explicitly. -/
inductive HttpOutcome where
  | transport_error (detail : RStr)
  | response (status : Nat)
deriving DecidableEq

/-- Embeds `EmailClient` from `src/email_client.rs` (the `http_client` field is the
transport itself and has no data content in the model). -/
structure EmailClient where
  base_url : RStr
  sender : SubscriberEmail
  authorization_token : RStr

/-- Embeds `EmailClient::send_email` from `src/email_client.rs`: builds a POST to
`{base_url}/email` with header `X-Postmark-Server-Token` and the PascalCase
JSON body, sends it once, propagates a transport error with `?`, and
otherwise returns `Ok(())` — the response status is never inspected. The
model returns the dispatched request together with the `Result`. -/
def EmailClient.send_email (c : EmailClient) (recipient : SubscriberEmail)
    (subject html_body text_body : RStr) (outcome : HttpOutcome) :
    HttpPost × Except RStr Unit :=
  ({ url := c.base_url ++ "/email".data
     header_name := "X-Postmark-Server-Token".data
     header_value := c.authorization_token
     body :=
       { From := c.sender.val
         To := recipient.val
         Subject := subject
         HtmlBody := html_body
         TextBody := text_body } },
   match outcome with
   | .transport_error detail => .error detail
   | .response _ => .ok ())

/-- Whether a `ParseOutcome` is the `Err` variant of the underlying
`Result` type. -/
def ParseOutcome.is_err : ParseOutcome α → Bool
  | .err _ => true
  | _ => false

/-- Whether `SubscriberEmail::parse` accepts the given string, i.e. returns
the `Ok` variant. -/
def email_accepted (email : RStr) : Bool :=
  match SubscriberEmail.parse email with
  | .ok _ => true
  | .error _ => false

/-- A `SubscriberName` used as a concrete valid instance in witnesses. -/
def john_name : SubscriberName := ⟨"John".data, by decide⟩

/-- A `SubscriberEmail` used as a concrete valid instance in witnesses. -/
def ursula_email : SubscriberEmail := ⟨"ursula_le_guin@gmail.com".data, by decide⟩

/-- A `SubscriberEmail` standing for the process-wide sender address. -/
def sender_example : SubscriberEmail := ⟨"sender@example.org".data, by decide⟩

/-- A concrete `EmailClient` instance for closed evaluations. -/
def client_example : EmailClient :=
  { base_url := "https://api.example.org".data
    sender := sender_example
    authorization_token := "secret-token".data }

/-- A `Domain.NewSubscriber` (the `src/domain.rs` aggregate) assembled
directly from an arbitrary, never-validated email string — the public
`String` field makes this possible. -/
def unvalidated_subscriber : Domain.NewSubscriber :=
  { email := "not an email".data, name := john_name }

section HelperLemmas

lemma count_eq_one_decomp (l : List Char) :
    l.count '@' = 1 ↔ ∃ a b, l = a ++ '@' :: b ∧ '@' ∉ a ∧ '@' ∉ b := by
  induction l with
  | nil => simp
  | cons c t ih =>
    by_cases hc : c = '@'
    · subst hc
      rw [List.count_cons_self]
      constructor
      · intro h
        have ht : t.count '@' = 0 := by omega
        exact ⟨[], t, rfl, by simp, List.count_eq_zero.mp ht⟩
      · rintro ⟨a, b, heq, ha, hb⟩
        cases a with
        | nil =>
          simp only [List.nil_append, List.cons.injEq] at heq
          rw [heq.2, List.count_eq_zero.mpr hb]
        | cons x a2 =>
          injection heq with h1 _
          exact absurd (h1 ▸ List.mem_cons_self x a2) ha
    · rw [List.count_cons_of_ne (fun h => hc h.symm)]
      rw [ih]
      constructor
      · rintro ⟨a, b, heq, ha, hb⟩
        refine ⟨c :: a, b, by rw [heq]; rfl, ?_, hb⟩
        intro hmem
        rcases List.mem_cons.mp hmem with h | h
        · exact hc h.symm
        · exact ha h
      · rintro ⟨a, b, heq, ha, hb⟩
        cases a with
        | nil =>
          simp only [List.nil_append, List.cons.injEq] at heq
          exact absurd heq.1 hc
        | cons x a2 =>
          injection heq with h1 h2
          refine ⟨a2, b, h2, fun hmem => ha (List.mem_cons_of_mem x hmem), hb⟩

lemma not_at_all_pos (a : List Char) (ha : '@' ∉ a) :
    ∀ x ∈ a, (fun c => !decide (c = '@')) x = true := by
  intro x hx
  simp only [Bool.not_eq_true', decide_eq_false_iff_not]
  intro h
  exact ha (h ▸ hx)

lemma takeWhile_at_split (a b : List Char) (ha : '@' ∉ a) :
    ((a ++ '@' :: b).takeWhile (fun c => !decide (c = '@'))) = a := by
  rw [List.takeWhile_append_of_pos (not_at_all_pos a ha)]
  simp

lemma dropWhile_at_split (a b : List Char) (ha : '@' ∉ a) :
    ((a ++ '@' :: b).dropWhile (fun c => !decide (c = '@'))) = '@' :: b := by
  rw [List.dropWhile_append_of_pos (not_at_all_pos a ha)]
  simp

end HelperLemmas

/-- C1: the handler `subscribe` responds 200 even though the submitted email
(the empty string) fails domain validation while the name is valid and the
insert succeeds — the claim demands 400 whenever the email fails domain
validation. -/
theorem subscribe_ignores_email_validation_cex :
    Routes.subscribe { email := [], name := "John".data } (Except.ok ()) = 200 ∧
    validate_email [] = false ∧
    email_accepted [] = false ∧
    Routes.is_valid_name "John".data = true := by
  decide

/-- C1 (amended): `subscribe` responds 400 exactly when the form's name
fails name validation (regardless of the persistence outcome, since the
handler returns before the insert); it responds 200 exactly when the name
passes and the insert succeeds; it responds 500 exactly when the name
passes and the insert fails. The email field is never validated. -/
theorem subscribe_response_characterization :
    ∀ (form : Routes.FormData) (r : Routes.InsertResult),
      (Routes.subscribe form r = 400 ↔ Routes.is_valid_name form.name = false) ∧
      (Routes.subscribe form r = 200 ↔
        Routes.is_valid_name form.name = true ∧ r = Except.ok ()) ∧
      (Routes.subscribe form r = 500 ↔
        Routes.is_valid_name form.name = true ∧ ∃ e, r = Except.error e) := by
  intro form r
  unfold Routes.subscribe
  by_cases h : Routes.is_valid_name form.name
  · cases r with
    | ok u => cases u; simp [h]
    | error e => simp [h]
  · cases r with
    | ok u => cases u; simp [Bool.eq_false_iff.mpr h]
    | error e => simp [Bool.eq_false_iff.mpr h]

/-- C2: `SubscriberName::parse` on the empty string neither returns a
`SubscriberName` nor the `Err` variant — it panics, an outcome the claim
says does not exist. -/
theorem subscriber_name_parse_panics_cex :
    SubscriberName.parse [] =
      ParseOutcome.panics ("\"\" is not a valid subscriber name.".data) := by
  decide

/-- C2 (amended): for every input string, `SubscriberName::parse` returns
`Ok` of the untrimmed original exactly when the name is valid, and panics
with a message embedding the offending input when it is not; the `Err`
variant of its declared `Result` type is never produced. -/
theorem subscriber_name_parse_spec (name : RStr) :
    (∀ h : Domain.is_valid_name name = true,
      SubscriberName.parse name = ParseOutcome.ok ⟨name, h⟩) ∧
    (Domain.is_valid_name name = false →
      SubscriberName.parse name =
        ParseOutcome.panics
          (('\"' :: name) ++ "\" is not a valid subscriber name.".data)) ∧
    (SubscriberName.parse name).is_err = false := by
  refine ⟨fun h => ?_, fun h => ?_, ?_⟩
  · simp [SubscriberName.parse, h]
  · simp [SubscriberName.parse, h]
  · unfold SubscriberName.parse
    split <;> simp [ParseOutcome.is_err]

/-- C2 witness: the amended claim applied at the concrete valid name "John"
and at the concrete invalid (empty) name. -/
theorem subscriber_name_parse_spec_witness :
    SubscriberName.parse "John".data = ParseOutcome.ok john_name ∧
    SubscriberName.parse [] =
      ParseOutcome.panics ("\"\" is not a valid subscriber name.".data) :=
  ⟨(subscriber_name_parse_spec "John".data).1 (by decide),
   (subscriber_name_parse_spec []).2.1 (by decide)⟩

/-- C9: the `Err` branch of `SubscriberName::parse` is unreachable — for
every input string the outcome is never the `Err` variant (it is `Ok` on
valid names and a panic on invalid ones). -/
theorem subscriber_name_parse_never_err :
    ∀ name : RStr, (SubscriberName.parse name).is_err = false := by
  intro name
  unfold SubscriberName.parse
  split <;> simp [ParseOutcome.is_err]

/-- C10: the `is_valid_name` in `src/routes/subscriptions.rs` and the
`is_valid_name` in `src/domain.rs` agree on every string. -/
theorem is_valid_name_duplicates_agree :
    ∀ name : RStr, Routes.is_valid_name name = Domain.is_valid_name name :=
  fun _ => rfl

/-- C3: `SubscriberEmail::parse` accepts a string exactly when it decomposes
as `local ++ '@' :: domain` with a unique `@`, a non-empty local-part and
domain-part, and no whitespace anywhere; and it accepts
"ursula_le_guin@gmail.com". -/
theorem subscriber_email_parse_spec :
    (∀ email : RStr,
      email_accepted email = true ↔
        ((∃ a b, email = a ++ '@' :: b ∧ '@' ∉ a ∧ '@' ∉ b ∧ a ≠ [] ∧ b ≠ []) ∧
          ∀ c ∈ email, is_rust_whitespace c = false)) ∧
    email_accepted "ursula_le_guin@gmail.com".data = true := by
  refine ⟨?_, by decide⟩
  intro email
  have hacc : email_accepted email = true ↔ validate_email email = true := by
    by_cases h : validate_email email = true
    · simp [email_accepted, SubscriberEmail.parse, h]
    · simp [email_accepted, SubscriberEmail.parse, h]
  rw [hacc]
  unfold validate_email
  simp only [Bool.and_eq_true, decide_eq_true_eq, List.all_eq_true, Bool.not_eq_true',
    List.isEmpty_eq_false]
  constructor
  · rintro ⟨⟨⟨h1, hws⟩, ht1⟩, ht2⟩
    obtain ⟨a, b, rfl, ha, hb⟩ := (count_eq_one_decomp _).mp h1
    rw [takeWhile_at_split a b ha] at ht1
    rw [dropWhile_at_split a b ha] at ht2
    exact ⟨⟨a, b, rfl, ha, hb, ht1, by simpa using ht2⟩, hws⟩
  · rintro ⟨⟨a, b, rfl, ha, hb, hane, hbne⟩, hws⟩
    refine ⟨⟨⟨(count_eq_one_decomp _).mpr ⟨a, b, rfl, ha, hb⟩, hws⟩, ?_⟩, ?_⟩
    · rw [takeWhile_at_split a b ha]
      exact hane
    · rw [dropWhile_at_split a b ha]
      simpa using hbne

set_option maxRecDepth 100000 in
/-- C5: name validation rejects a string exactly when its trimmed form is
empty, its grapheme-cluster count exceeds 256, or it contains a forbidden
character; a 256-grapheme name of plain letters is accepted and a
257-grapheme one is rejected. -/
theorem is_valid_name_spec :
    (∀ name : RStr,
      Domain.is_valid_name name = false ↔
        trim name = [] ∨ 256 < grapheme_count name ∨
          ∃ c ∈ name, c ∈ FORBIDDEN_NAME_CHARACTERS) ∧
    Domain.is_valid_name (List.replicate 256 'a') = true ∧
    Domain.is_valid_name (List.replicate 257 'a') = false := by
  refine ⟨?_, by decide, by decide⟩
  intro name
  unfold Domain.is_valid_name MAX_NAME_LEN
  simp only [Bool.not_eq_false', Bool.or_eq_true, List.isEmpty_iff,
    decide_eq_true_eq, List.any_eq_true, List.elem_iff, gt_iff_lt, or_assoc]

/-- C4: the provider's answer status is never inspected — a non-2xx (500)
response still yields `Ok`, although the claim demands a `DispatchError` for
every non-success status. -/
theorem send_email_status_ignored_cex :
    (client_example.send_email ursula_email "s".data "h".data "t".data
      (HttpOutcome.response 500)).2 = Except.ok () := by
  rfl

/-- C4 (amended): `send_email` returns `Err` exactly on transport failure,
carrying the transport detail; whenever the provider answers with any HTTP
status — success or not — the result is `Ok`. -/
theorem send_email_result_spec :
    ∀ (c : EmailClient) (recipient : SubscriberEmail)
      (subject html_body text_body : RStr),
      (∀ status : Nat,
        (c.send_email recipient subject html_body text_body
          (HttpOutcome.response status)).2 = Except.ok ()) ∧
      (∀ detail : RStr,
        (c.send_email recipient subject html_body text_body
          (HttpOutcome.transport_error detail)).2 = Except.error detail) :=
  fun _ _ _ _ _ => ⟨fun _ => rfl, fun _ => rfl⟩

/-- C6: whatever string either parser accepts is stored untrimmed and
unmodified — reading the value back yields the original input. -/
theorem parse_round_trip (s t : RStr) (n : SubscriberName) (e : SubscriberEmail)
    (hn : SubscriberName.parse s = ParseOutcome.ok n)
    (he : SubscriberEmail.parse t = Except.ok e) :
    n.val = s ∧ e.val = t := by
  constructor
  · unfold SubscriberName.parse at hn
    split at hn
    · exact absurd hn (by simp)
    · cases hn
      rfl
  · unfold SubscriberEmail.parse at he
    split at he
    · cases he
      rfl
    · exact absurd he (by simp)

/-- C6 witness: the round-trip theorem applied to the accepted name "John"
and the accepted email "ursula_le_guin@gmail.com". -/
theorem parse_round_trip_witness :
    john_name.val = "John".data ∧
    ursula_email.val = "ursula_le_guin@gmail.com".data :=
  parse_round_trip "John".data "ursula_le_guin@gmail.com".data
    john_name ursula_email (by decide) (by rfl)

/-- C7: the `NewSubscriber` of `src/domain.rs` is *not* construction-gated
on its email — its public plain-`String` email field lets a value be
assembled from an unvalidated email, exhibited here concretely. -/
theorem new_subscriber_unvalidated_email_cex :
    validate_email unvalidated_subscriber.email = false ∧
    email_accepted unvalidated_subscriber.email = false := by
  decide

/-- C7 (amended): `SubscriberName` and `SubscriberEmail` are
construction-gated — every instance satisfies its validation predicate —
and the `NewSubscriber` of `src/domain/new_subscriber.rs` inherits the
guarantee for both fields; the `NewSubscriber` of `src/domain.rs`, however,
carries its email as a plain unvalidated string (only its name is gated). -/
theorem construction_gated_types_spec :
    (∀ n : SubscriberName, Domain.is_valid_name n.val = true) ∧
    (∀ e : SubscriberEmail, validate_email e.val = true) ∧
    (∀ ns : DomainV2.NewSubscriber,
      validate_email ns.email.val = true ∧
        Domain.is_valid_name ns.name.val = true) ∧
    (∀ ns : Domain.NewSubscriber, Domain.is_valid_name ns.name.val = true) :=
  ⟨fun n => n.prop, fun e => e.prop,
   fun ns => ⟨ns.email.prop, ns.name.prop⟩, fun ns => ns.name.prop⟩

/-- C8: the authentication header dispatched by `send_email` is named
`X-Postmark-Server-Token`, not `X-Provider-Auth-Token` as the claim
states. -/
theorem send_email_header_name_cex :
    (client_example.send_email ursula_email "s".data "h".data "t".data
        (HttpOutcome.response 200)).1.header_name =
      "X-Postmark-Server-Token".data ∧
    ("X-Postmark-Server-Token".data : RStr) ≠ "X-Provider-Auth-Token".data := by
  decide

/-- C8 (amended): every call to `send_email` dispatches a single POST to
`{base_url}/email` whose authentication token travels in the header
`X-Postmark-Server-Token` and whose JSON body holds exactly the five
PascalCase fields `From` (the sender fixed at construction), `To` (the
recipient argument), `Subject`, `HtmlBody` and `TextBody`. -/
theorem send_email_request_spec :
    ∀ (c : EmailClient) (recipient : SubscriberEmail)
      (subject html_body text_body : RStr) (outcome : HttpOutcome),
      (c.send_email recipient subject html_body text_body outcome).1 =
        { url := c.base_url ++ "/email".data
          header_name := "X-Postmark-Server-Token".data
          header_value := c.authorization_token
          body :=
            { From := c.sender.val
              To := recipient.val
              Subject := subject
              HtmlBody := html_body
              TextBody := text_body } } :=
  fun _ _ _ _ _ _ => rfl

end Zero2Prod
